import Mathlib

/-!
# Verification of the agent-toolkit repository

Shallow embedding of the repository's Python sources:
* `src/src/tools/example_tool.py` — `CalculatorTool`, `WebSearchTool` and
  their pydantic input/output records,
* `src/src/config.py` — `ModelConfig`, `AgentConfig`, `AppConfig` and
  `AppConfig.from_env`,
* `src/src/agent.py` — `Message`, `AgentResponse`, `ADKAgent`
  (`register_tool`, `process`, `reset`, `get_history`).

Python floats are modelled as rationals (`ℚ`), exceptions as `Except`,
the mutable agent object as explicit state passing, and (for the aliasing
claim about `get_history`) Python list objects as cells of an explicit heap.
-/

namespace AgentToolkit

/-! ## Calculator tool (`src/src/tools/example_tool.py`) -/

/-- Input schema for the calculator tool (`CalculatorInput`).
pydantic declares `operation : str` with only a description — no enum
constraint — and two floats. -/
structure CalculatorInput where
  operation : String
  a : ℚ
  b : ℚ
deriving DecidableEq, Repr

/-- Output schema for the calculator tool (`CalculatorOutput`). -/
structure CalculatorOutput where
  result : ℚ
  operation : String
deriving DecidableEq, Repr

/-- Errors raised by `CalculatorTool.execute` (Python `ValueError`s):
an invalid operation (the message names the allowed set) or division
by zero. -/
inductive CalcError where
  | invalidOperation (op : String) (allowed : List String)
  | divisionByZero
deriving DecidableEq, Repr

/-- The keys of the `operations` dict in `CalculatorTool.execute`,
in insertion order. -/
def operationNames : List String := ["add", "subtract", "multiply", "divide"]

/-- The `operations` dict of `CalculatorTool.execute`: each operation maps
to a binary function; `divide` returns `none` for a zero divisor
(Python: `a / b if b != 0 else None`). Lookup of an unknown key is `none`. -/
def operationsDict (op : String) : Option (ℚ → ℚ → Option ℚ) :=
  if op = "add" then some fun a b => some (a + b)
  else if op = "subtract" then some fun a b => some (a - b)
  else if op = "multiply" then some fun a b => some (a * b)
  else if op = "divide" then some fun a b => if b ≠ 0 then some (a / b) else none
  else none

namespace CalculatorTool

/-- Python `CalculatorTool.execute`: dispatch on the operation through the
`operations` dict; unknown operation raises `ValueError` naming the
allowed set; a `none` result (division by zero) raises `ValueError`. -/
def execute (input_data : CalculatorInput) : Except CalcError CalculatorOutput :=
  match operationsDict input_data.operation with
  | none => .error (.invalidOperation input_data.operation operationNames)
  | some f =>
    match f input_data.a input_data.b with
    | none => .error .divisionByZero
    | some result => .ok ⟨result, input_data.operation⟩

end CalculatorTool

/-- Reference arithmetic definition, stated from the specification's words:
`add`/`subtract`/`multiply` return `a+b`/`a-b`/`a*b` with the operation
echoed; `divide` returns `a/b` when `b ≠ 0` and a division-by-zero error
when `b = 0`; any other operation is an invalid-operation error naming
the allowed set; no other case fails. -/
def calculatorReference (input : CalculatorInput) : Except CalcError CalculatorOutput :=
  if input.operation = "add" then .ok ⟨input.a + input.b, input.operation⟩
  else if input.operation = "subtract" then .ok ⟨input.a - input.b, input.operation⟩
  else if input.operation = "multiply" then .ok ⟨input.a * input.b, input.operation⟩
  else if input.operation = "divide" then
    if input.b = 0 then .error .divisionByZero
    else .ok ⟨input.a / input.b, input.operation⟩
  else .error (.invalidOperation input.operation operationNames)

/-- C1: `CalculatorTool.execute` equals the reference arithmetic definition:
add/subtract/multiply return the exact arithmetic result with the operation
echoed, divide returns `a/b` for a nonzero divisor and a division-by-zero
error for a zero divisor, any operation outside the allowed set is an
invalid-operation error naming that set, and no other case fails. -/
theorem calculator_execute_eq_reference (input : CalculatorInput) :
    CalculatorTool.execute input = calculatorReference input := by
  unfold CalculatorTool.execute calculatorReference operationsDict
  rcases input with ⟨op, a, b⟩
  by_cases h1 : op = "add" <;> by_cases h2 : op = "subtract" <;>
    by_cases h3 : op = "multiply" <;> by_cases h4 : op = "divide" <;>
    by_cases h5 : b = 0 <;> simp_all

/-! ## pydantic construction of the tool input records -/

/-- A pydantic field-validation failure, naming the offending field. -/
inductive ValidationError where
  | fieldOutOfRange (field : String)
deriving DecidableEq, Repr

namespace CalculatorInput

/-- pydantic construction of `CalculatorInput`: the model declares
`operation : str`, `a : float`, `b : float` with descriptions only, so
every well-typed triple is accepted — there is no enum constraint. -/
def construct (operation : String) (a b : ℚ) : Except ValidationError CalculatorInput :=
  .ok ⟨operation, a, b⟩

end CalculatorInput

/-- Input schema for the web search tool (`WebSearchInput`). -/
structure WebSearchInput where
  query : String
  max_results : Int
deriving DecidableEq, Repr

namespace WebSearchInput

/-- pydantic construction of `WebSearchInput`: `max_results` carries
`ge=1, le=10`, so a value outside `[1, 10]` fails field validation. -/
def construct (query : String) (max_results : Int) : Except ValidationError WebSearchInput :=
  if 1 ≤ max_results ∧ max_results ≤ 10 then .ok ⟨query, max_results⟩
  else .error (.fieldOutOfRange "max_results")

end WebSearchInput

/-! ## Web search tool (`src/src/tools/example_tool.py`) -/

/-- One synthetic search result record `{title, url, snippet}`. -/
structure SearchResult where
  title : String
  url : String
  snippet : String
deriving DecidableEq, Repr

/-- Output schema for the web search tool (`WebSearchOutput`). -/
structure WebSearchOutput where
  results : List SearchResult
  query : String
deriving DecidableEq, Repr

namespace WebSearchTool

/-- The ASCII single-quote character (code 39) that the source wraps
around the query inside the placeholder titles. -/
def quoteChar : String := String.singleton (Char.ofNat 39)

/-- The placeholder `results` list built by `WebSearchTool.execute`
before truncation: exactly two synthetic results whose titles embed
the query text between single quotes. -/
def placeholderResults (query : String) : List SearchResult :=
  [⟨"Result 1 for " ++ quoteChar ++ query ++ quoteChar, "https://example.com/1",
    "This is a placeholder search result."⟩,
   ⟨"Result 2 for " ++ quoteChar ++ query ++ quoteChar, "https://example.com/2",
    "Another placeholder result."⟩]

/-- Python `WebSearchTool.execute`: build the two placeholder results and
truncate with `results[: input_data.max_results]`, echoing the query. -/
def execute (input_data : WebSearchInput) : WebSearchOutput :=
  ⟨(placeholderResults input_data.query).take input_data.max_results.toNat,
   input_data.query⟩

end WebSearchTool

/-! ## Configuration (`src/src/config.py`) -/

/-- The `ModelConfig` record. -/
structure ModelConfig where
  name : String
  temperature : ℚ
  top_p : ℚ
  top_k : Int
  max_output_tokens : Int
deriving DecidableEq, Repr

/-- pydantic defaults of `ModelConfig` (`ModelConfig()`). -/
def modelConfigDefault : ModelConfig :=
  ⟨"gemini-1.5-pro", 7 / 10, 95 / 100, 40, 2048⟩

namespace ModelConfig

/-- pydantic construction of `ModelConfig`: range checks
`temperature ∈ [0, 2]`, `top_p ∈ [0, 1]`, `top_k ≥ 1`,
`max_output_tokens ∈ [1, 8192]`. -/
def construct (name : String) (temperature top_p : ℚ) (top_k max_output_tokens : Int) :
    Except ValidationError ModelConfig :=
  if ¬ (0 ≤ temperature ∧ temperature ≤ 2) then .error (.fieldOutOfRange "temperature")
  else if ¬ (0 ≤ top_p ∧ top_p ≤ 1) then .error (.fieldOutOfRange "top_p")
  else if ¬ (1 ≤ top_k) then .error (.fieldOutOfRange "top_k")
  else if ¬ (1 ≤ max_output_tokens ∧ max_output_tokens ≤ 8192) then
    .error (.fieldOutOfRange "max_output_tokens")
  else .ok ⟨name, temperature, top_p, top_k, max_output_tokens⟩

end ModelConfig

/-- The `AgentConfig` record (no field constraints beyond types). -/
structure AgentConfig where
  name : String
  debug : Bool
  log_level : String
  log_format : String
deriving DecidableEq, Repr

/-- pydantic defaults of `AgentConfig` (`AgentConfig()`). -/
def agentConfigDefault : AgentConfig :=
  ⟨"ADK Starter Agent", false, "INFO", "json"⟩

/-- The `AppConfig` record. -/
structure AppConfig where
  api_key : String
  model : ModelConfig
  agent : AgentConfig
deriving DecidableEq, Repr

/-- Errors surfacing from `AppConfig.from_env`: the missing-API-key
`ValueError`, a numeric parse failure (`float(...)`/`int(...)` raising),
or a pydantic field-validation failure. -/
inductive ConfigError where
  | missingApiKey
  | parseFailure (raw : String)
  | validation (e : ValidationError)
deriving DecidableEq, Repr

namespace AppConfig

/-- pydantic construction of `AppConfig`: `api_key : str` is required but
carries no constraint beyond its type — the empty string is accepted. -/
def construct (api_key : String) (model : ModelConfig) (agent : AgentConfig) :
    Except ValidationError AppConfig :=
  .ok ⟨api_key, model, agent⟩

/-- Python `AppConfig.from_env`. The process environment is `env` (a name is
either unset, `none`, or set to a string); `os.getenv(k, d)` is
`(env k).getD d`. Python's `float(...)`/`int(...)` conversions are the
parameters `parseFloat`/`parseInt` (they raise on malformed input).
The API key is checked for truthiness (non-emptiness) first; the model
and agent sections are then built with their pydantic range checks. -/
def from_env (env : String → Option String)
    (parseFloat : String → Except ConfigError ℚ)
    (parseInt : String → Except ConfigError Int) :
    Except ConfigError AppConfig :=
  let api_key := (env "GOOGLE_API_KEY").getD ""
  if api_key = "" then .error .missingApiKey
  else do
    let temperature ← parseFloat ((env "TEMPERATURE").getD "0.7")
    let top_p ← parseFloat ((env "TOP_P").getD "0.95")
    let top_k ← parseInt ((env "TOP_K").getD "40")
    let max_output_tokens ← parseInt ((env "MAX_OUTPUT_TOKENS").getD "2048")
    let model_config ←
      (ModelConfig.construct ((env "MODEL_NAME").getD "gemini-1.5-pro")
        temperature top_p top_k max_output_tokens).mapError .validation
    let agent_config : AgentConfig :=
      ⟨(env "AGENT_NAME").getD "ADK Starter Agent",
       ((env "DEBUG").getD "false").toLower = "true",
       (env "LOG_LEVEL").getD "INFO",
       (env "LOG_FORMAT").getD "json"⟩
    match AppConfig.construct api_key model_config agent_config with
    | .ok cfg => .ok cfg
    | .error e => .error (.validation e)

end AppConfig

/-! ## Agent (`src/src/agent.py`) -/

/-- A message in the conversation (`Message`). -/
structure Message where
  role : String
  content : String
deriving DecidableEq, Repr

/-- The metadata dict built by `process`:
`{"model": ..., "turn": ...}`. -/
structure Metadata where
  model : String
  turn : Nat
deriving DecidableEq, Repr

/-- The `AgentResponse` record. `tool_calls` defaults to `None` and `process` never
sets it; its element type is untyped in the source (`Dict[str, Any]`),
modelled by association lists of strings. -/
structure AgentResponse where
  message : String
  tool_calls : Option (List (List (String × String))) := none
  metadata : Option Metadata := none
deriving DecidableEq, Repr

/-- Python dict lookup `d[k]` on an association list with unique keys
(the representation `dictInsert` maintains). -/
def dictGet {τ : Type} : List (String × τ) → String → Option τ
  | [], _ => none
  | (k, v) :: rest, key => if key = k then some v else dictGet rest key

/-- Python dict assignment `d[k] = v`: overwrite the value in place when
the key exists, otherwise append a new entry. -/
def dictInsert {τ : Type} : List (String × τ) → String → τ → List (String × τ)
  | [], k, v => [(k, v)]
  | (k0, v0) :: rest, k, v =>
    if k0 = k then (k, v) :: rest else (k0, v0) :: dictInsert rest k v

/-- The mutable state of an `ADKAgent` object: its configuration, the
conversation history list, and the tool registry dict. The registered
tools are untyped in the source (`Dict[str, Any]`), so the payload type
`τ` is a parameter. -/
structure AgentState (τ : Type) where
  config : AppConfig
  conversation_history : List Message
  tools : List (String × τ)

namespace ADKAgent

/-- Python `ADKAgent.__init__`: store the configuration, start with an empty
history and an empty tool registry. -/
def init {τ : Type} (config : AppConfig) : AgentState τ :=
  ⟨config, [], []⟩

/-- Python `ADKAgent.register_tool`: `self.tools[name] = tool` (plus a log
entry, which has no modelled effect). -/
def register_tool {τ : Type} (st : AgentState τ) (name : String) (tool : τ) :
    AgentState τ :=
  { st with tools := dictInsert st.tools name tool }

/-- The placeholder response text of `process`, an f-string determined by
the configured agent name alone. -/
def responseText (config : AppConfig) : String :=
  "This is a placeholder response from " ++ config.agent.name ++
    ". Replace this with actual ADK implementation."

/-- Python `ADKAgent.process`: append the user message, build the placeholder
response text, append the assistant message, and return an
`AgentResponse` whose metadata holds the model name and
`len(self.conversation_history) // 2`. -/
def process {τ : Type} (st : AgentState τ) (user_input : String) :
    AgentState τ × AgentResponse :=
  let history1 := st.conversation_history ++ [⟨"user", user_input⟩]
  let response_text := responseText st.config
  let history2 := history1 ++ [⟨"assistant", response_text⟩]
  ({ st with conversation_history := history2 },
   { message := response_text,
     metadata := some ⟨st.config.model.name, history2.length / 2⟩ })

/-- Python `ADKAgent.reset`: `self.conversation_history.clear()`. -/
def reset {τ : Type} (st : AgentState τ) : AgentState τ :=
  { st with conversation_history := [] }

end ADKAgent

/-! ## Heap model for `get_history`'s copy semantics

`get_history` returns `self.conversation_history.copy()`. To state that
the caller mutating the returned list cannot affect the agent, Python
list objects are modelled as cells of an explicit heap and the agent
holds a reference to its history cell. -/

/-- A heap of Python list objects: cell contents indexed by reference,
plus the next fresh reference. -/
structure Heap where
  cells : Nat → List Message
  next : Nat

namespace Heap

/-- Dereference a list object. -/
def read (h : Heap) (r : Nat) : List Message := h.cells r

/-- In-place mutation of a list object (covers `append`, `clear`, …:
the cell's new contents are arbitrary). -/
def write (h : Heap) (r : Nat) (v : List Message) : Heap :=
  ⟨fun i => if i = r then v else h.cells i, h.next⟩

/-- Allocate a fresh list object with the given contents. -/
def alloc (h : Heap) (v : List Message) : Heap × Nat :=
  (⟨fun i => if i = h.next then v else h.cells i, h.next + 1⟩, h.next)

end Heap

/-- The agent as a heap object: it owns the reference to its
`conversation_history` list. -/
structure AgentObj where
  historyRef : Nat

/-- Python `ADKAgent.get_history`: `return self.conversation_history.copy()` —
allocate a fresh list object holding a copy of the history's contents
and return its reference; the agent's own cell is untouched. -/
def get_history (h : Heap) (a : AgentObj) : Heap × Nat :=
  h.alloc (h.read a.historyRef)

/-! ## Claims about input construction (C2) -/

/-- C2 counterexample: the claim says constructing a `CalculatorInput`
with an operation outside the enum fails at construction, but pydantic
accepts the operation string `pow` — construction succeeds. -/
theorem calculatorInput_accepts_invalid_operation :
    CalculatorInput.construct "pow" 2 3 = Except.ok ⟨"pow", 2, 3⟩ := rfl

/-- C2 (amended): `WebSearchInput` construction succeeds exactly when
`max_results ∈ [1, 10]`; `CalculatorInput` construction accepts every
operation string (no enum check at construction), and an operation
outside the allowed set is rejected only later, by `execute`, with an
invalid-operation error. -/
theorem input_construction_validation (q : String) (n : Int) (op : String) (a b : ℚ) :
    ((WebSearchInput.construct q n).isOk = true ↔ (1 ≤ n ∧ n ≤ 10))
    ∧ CalculatorInput.construct op a b = Except.ok ⟨op, a, b⟩
    ∧ (op ∉ operationNames →
        CalculatorTool.execute ⟨op, a, b⟩ =
          Except.error (.invalidOperation op operationNames)) := by
  refine ⟨?_, rfl, ?_⟩
  · unfold WebSearchInput.construct
    by_cases h : 1 ≤ n ∧ n ≤ 10 <;> simp [h, Except.isOk, Except.toBool]
  · intro hop
    simp only [operationNames, List.mem_cons, List.not_mem_nil] at hop
    push_neg at hop
    obtain ⟨h1, h2, h3, h4, _⟩ := hop
    simp [CalculatorTool.execute, operationsDict, h1, h2, h3, h4]

/-- Witness for C2 (amended) at `op = "pow"`, `n = 11`. -/
theorem input_construction_validation_witness :
    ("pow" ∉ operationNames)
    ∧ CalculatorTool.execute ⟨"pow", 2, 3⟩ =
        Except.error (.invalidOperation "pow" operationNames) :=
  ⟨by decide, (input_construction_validation "q" 11 "pow" 2 3).2.2 (by decide)⟩

/-! ## Claims about configuration (C3) -/

/-- C3 counterexample: the claim says every way of constructing an
`AppConfig` with an empty `api_key` fails, but direct pydantic
construction with the empty string succeeds — the field has no
non-emptiness constraint. -/
theorem appConfig_accepts_empty_api_key :
    AppConfig.construct "" modelConfigDefault agentConfigDefault =
      Except.ok ⟨"", modelConfigDefault, agentConfigDefault⟩ := rfl

/-- C3 (amended): `AppConfig.from_env` fails when `GOOGLE_API_KEY` is
missing from the environment or set to the empty string (for every
behaviour of the numeric parsers), while direct construction of an
`AppConfig` accepts any `api_key` string, the empty string included. -/
theorem from_env_requires_api_key (env : String → Option String)
    (pf : String → Except ConfigError ℚ) (pi : String → Except ConfigError Int)
    (h : (env "GOOGLE_API_KEY").getD "" = "")
    (k : String) (mc : ModelConfig) (ac : AgentConfig) :
    AppConfig.from_env env pf pi = Except.error ConfigError.missingApiKey
    ∧ AppConfig.construct k mc ac = Except.ok ⟨k, mc, ac⟩ := by
  refine ⟨?_, rfl⟩
  unfold AppConfig.from_env
  simp [h]

/-- Witness for C3 (amended) on the empty environment. -/
theorem from_env_requires_api_key_witness :
    ((((fun _ => none) : String → Option String) "GOOGLE_API_KEY").getD "" = "")
    ∧ (AppConfig.from_env (fun _ => none)
          (fun s => Except.error (ConfigError.parseFailure s))
          (fun s => Except.error (ConfigError.parseFailure s)) =
        Except.error ConfigError.missingApiKey
       ∧ AppConfig.construct "" modelConfigDefault agentConfigDefault =
          Except.ok ⟨"", modelConfigDefault, agentConfigDefault⟩) :=
  ⟨rfl, from_env_requires_api_key (fun _ => none)
    (fun s => Except.error (ConfigError.parseFailure s))
    (fun s => Except.error (ConfigError.parseFailure s)) rfl
    "" modelConfigDefault agentConfigDefault⟩

/-! ## Claims about `process`, `reset` and the history (C4, C5) -/

/-- C4: one call to `process` appends exactly two messages to the
history — first the user message carrying the input, then the assistant
message — leaving every earlier entry unchanged; `reset` restores the
history to length 0 and is idempotent (resetting an already-reset agent
changes nothing). -/
theorem process_appends_two_and_reset_clears {τ : Type} (st : AgentState τ) (s : String) :
    (ADKAgent.process st s).1.conversation_history =
      st.conversation_history ++
        [⟨"user", s⟩, ⟨"assistant", ADKAgent.responseText st.config⟩]
    ∧ (ADKAgent.reset st).conversation_history = []
    ∧ ADKAgent.reset (ADKAgent.reset st) = ADKAgent.reset st := by
  refine ⟨?_, rfl, rfl⟩
  simp [ADKAgent.process]

/-- C5: `process` is total (this embedding returns on every input,
the empty string included), its response message contains the configured
agent name as a substring, and `metadata.turn` is the history length
integer-divided by 2, measured after both messages of the call are
appended. -/
theorem process_response_contains_agent_name {τ : Type} (st : AgentState τ) (s : String) :
    (∃ pre post,
        ((ADKAgent.process st s).2).message = pre ++ st.config.agent.name ++ post)
    ∧ ((ADKAgent.process st s).2).metadata =
        some ⟨st.config.model.name,
          (ADKAgent.process st s).1.conversation_history.length / 2⟩ :=
  ⟨⟨"This is a placeholder response from ",
    ". Replace this with actual ADK implementation.", rfl⟩, rfl⟩

/-! ## Claims about the web search tool (C6) -/

/-- C6: for `max_results ∈ [1, 10]`, `WebSearchTool.execute` returns
exactly `min 2 max_results` results with the query echoed; the candidate
pool before truncation has size exactly 2, and every returned result is
one of the two synthetic records whose title is built from the query
text. -/
theorem webSearch_execute_truncates (q : String) (n : Int)
    (h1 : 1 ≤ n) (h2 : n ≤ 10) :
    (WebSearchTool.execute ⟨q, n⟩).results.length = min 2 n.toNat
    ∧ (WebSearchTool.execute ⟨q, n⟩).query = q
    ∧ (WebSearchTool.placeholderResults q).length = 2
    ∧ ∀ r ∈ (WebSearchTool.execute ⟨q, n⟩).results,
        r.title = "Result 1 for " ++ WebSearchTool.quoteChar ++ q ++ WebSearchTool.quoteChar
        ∨ r.title = "Result 2 for " ++ WebSearchTool.quoteChar ++ q ++ WebSearchTool.quoteChar := by
  refine ⟨?_, rfl, rfl, ?_⟩
  · simp [WebSearchTool.execute, WebSearchTool.placeholderResults, Nat.min_comm]
  · intro r hr
    have hmem : r ∈ WebSearchTool.placeholderResults q :=
      List.take_subset _ _ hr
    simp only [WebSearchTool.placeholderResults, List.mem_cons,
      List.not_mem_nil, or_false] at hmem
    rcases hmem with h | h <;> [left; right] <;> rw [h]

/-- Witness for C6 at `max_results = 5`. -/
theorem webSearch_execute_truncates_witness :
    (1 ≤ (5 : Int)) ∧ ((5 : Int) ≤ 10)
    ∧ ((WebSearchTool.execute ⟨"lean", 5⟩).results.length = min 2 (Int.toNat 5)
       ∧ (WebSearchTool.execute ⟨"lean", 5⟩).query = "lean"
       ∧ (WebSearchTool.placeholderResults "lean").length = 2
       ∧ ∀ r ∈ (WebSearchTool.execute ⟨"lean", 5⟩).results,
          r.title = "Result 1 for " ++ WebSearchTool.quoteChar ++ "lean" ++ WebSearchTool.quoteChar
          ∨ r.title = "Result 2 for " ++ WebSearchTool.quoteChar ++ "lean" ++ WebSearchTool.quoteChar) :=
  ⟨by decide, by decide, webSearch_execute_truncates "lean" 5 (by decide) (by decide)⟩

/-! ## Claims about `get_history` (C7) -/

/-- C7: `get_history` returns a snapshot copy — the returned list object
holds exactly the internal history's contents, the agent's own cell is
left unchanged by the call, and after a caller mutates the returned
object (to arbitrary new contents) the internal history and the result
of a subsequent `get_history` are both still the original contents. -/
theorem get_history_returns_copy (h : Heap) (a : AgentObj)
    (hv : a.historyRef < h.next) (v : List Message) :
    ((get_history h a).1).read (get_history h a).2 = h.read a.historyRef
    ∧ ((get_history h a).1).read a.historyRef = h.read a.historyRef
    ∧ (((get_history h a).1.write (get_history h a).2 v).read a.historyRef
        = h.read a.historyRef)
    ∧ (((get_history ((get_history h a).1.write (get_history h a).2 v) a).1).read
          (get_history ((get_history h a).1.write (get_history h a).2 v) a).2
        = h.read a.historyRef) := by
  have hne : a.historyRef ≠ h.next := Nat.ne_of_lt hv
  simp [get_history, Heap.alloc, Heap.read, Heap.write, hne]

/-- Witness for C7 on a one-cell heap holding one message. -/
theorem get_history_returns_copy_witness :
    ((AgentObj.mk 0).historyRef < (Heap.mk (fun _ => [⟨"user", "hi"⟩]) 1).next)
    ∧ (((get_history (Heap.mk (fun _ => [⟨"user", "hi"⟩]) 1) ⟨0⟩).1).read
          (get_history (Heap.mk (fun _ => [⟨"user", "hi"⟩]) 1) ⟨0⟩).2
        = (Heap.mk (fun _ => [⟨"user", "hi"⟩]) 1).read 0) :=
  ⟨by decide,
   (get_history_returns_copy (Heap.mk (fun _ => [⟨"user", "hi"⟩]) 1) ⟨0⟩
      (by decide) []).1⟩

/-! ## Claims about the response's independence of the input (C8) -/

/-- C8: the response message of `process` is a hard-coded template
determined only by the configured agent name — two agents with the same
configuration produce identical messages for any two inputs — and the
message equals the deterministic `responseText` of the configuration. -/
theorem process_message_independent_of_input {τ₁ τ₂ : Type}
    (st₁ : AgentState τ₁) (st₂ : AgentState τ₂) (hc : st₁.config = st₂.config)
    (s₁ s₂ : String) :
    ((ADKAgent.process st₁ s₁).2).message = ((ADKAgent.process st₂ s₂).2).message
    ∧ ((ADKAgent.process st₁ s₁).2).message = ADKAgent.responseText st₁.config := by
  refine ⟨?_, rfl⟩
  show ADKAgent.responseText st₁.config = ADKAgent.responseText st₂.config
  rw [hc]

/-- Witness for C8: same configuration, different histories and inputs. -/
theorem process_message_independent_of_input_witness :
    ((AgentState.mk (τ := Unit) ⟨"key", modelConfigDefault, agentConfigDefault⟩ [] []).config
      = (AgentState.mk (τ := Unit) ⟨"key", modelConfigDefault, agentConfigDefault⟩
          [⟨"user", "earlier"⟩] []).config)
    ∧ ((ADKAgent.process
          (AgentState.mk (τ := Unit) ⟨"key", modelConfigDefault, agentConfigDefault⟩ [] [])
          "a").2).message =
        ((ADKAgent.process
          (AgentState.mk (τ := Unit) ⟨"key", modelConfigDefault, agentConfigDefault⟩
            [⟨"user", "earlier"⟩] [])
          "b").2).message :=
  ⟨rfl,
   (process_message_independent_of_input
      (AgentState.mk ⟨"key", modelConfigDefault, agentConfigDefault⟩ [] [])
      (AgentState.mk ⟨"key", modelConfigDefault, agentConfigDefault⟩
        [⟨"user", "earlier"⟩] [])
      rfl "a" "b").1⟩

/-! ## Claims about the tool registry (C9) -/

/-- Looking up the key just inserted by `dictInsert` yields the inserted
value. -/
theorem dictGet_dictInsert_self {τ : Type} (d : List (String × τ)) (k : String) (v : τ) :
    dictGet (dictInsert d k v) k = some v := by
  induction d with
  | nil => simp [dictInsert, dictGet]
  | cons p rest ih =>
    obtain ⟨k0, v0⟩ := p
    by_cases h : k0 = k
    · simp [dictInsert, dictGet, h]
    · simp only [dictInsert, if_neg h, dictGet]
      rw [if_neg (fun hh => h hh.symm)]
      exact ih

/-- `dictInsert` leaves the value of every other key unchanged. -/
theorem dictGet_dictInsert_ne {τ : Type} (d : List (String × τ)) (k k' : String) (v : τ)
    (h : k' ≠ k) : dictGet (dictInsert d k v) k' = dictGet d k' := by
  induction d with
  | nil => simp [dictInsert, dictGet, h]
  | cons p rest ih =>
    obtain ⟨k0, v0⟩ := p
    by_cases h0 : k0 = k
    · subst h0
      simp [dictInsert, dictGet, h]
    · simp only [dictInsert, if_neg h0, dictGet]
      by_cases h1 : k' = k0 <;> simp [h1, ih]

/-- C9: tool registration is last-write-wins — after registering `t1`
then `t2` under the same name, the registry maps that name to `t2`;
registering under a name leaves every entry under a different name
unchanged (and, being a total function, never fails); and `process`
leaves the tool registry untouched. -/
theorem register_tool_last_write_wins {τ : Type} (st : AgentState τ)
    (name other : String) (t1 t2 t : τ) (s : String) (h : other ≠ name) :
    dictGet (ADKAgent.register_tool (ADKAgent.register_tool st name t1) name t2).tools
        name = some t2
    ∧ dictGet (ADKAgent.register_tool st name t).tools other = dictGet st.tools other
    ∧ (ADKAgent.process st s).1.tools = st.tools :=
  ⟨dictGet_dictInsert_self _ name t2, dictGet_dictInsert_ne st.tools name other t h, rfl⟩

/-- Witness for C9 with two registrations under `calculator`. -/
theorem register_tool_last_write_wins_witness :
    ("web_search" ≠ "calculator")
    ∧ dictGet (ADKAgent.register_tool
          (ADKAgent.register_tool
            (AgentState.mk (τ := String) ⟨"key", modelConfigDefault, agentConfigDefault⟩ [] [])
            "calculator" "v1")
          "calculator" "v2").tools "calculator" = some "v2" :=
  ⟨by decide,
   (register_tool_last_write_wins
      (AgentState.mk (τ := String) ⟨"key", modelConfigDefault, agentConfigDefault⟩ [] [])
      "calculator" "web_search" "v1" "v2" "v" "hi" (by decide)).1⟩

/-! ## Claims about the response and the history tail (C10) -/

/-- C10: after a call to `process`, the returned message equals the
content of the last history entry (the assistant message appended by the
call), and the returned metadata records the configured model name. -/
theorem process_message_is_last_history_entry {τ : Type} (st : AgentState τ) (s : String) :
    (ADKAgent.process st s).1.conversation_history.getLast? =
      some ⟨"assistant", ((ADKAgent.process st s).2).message⟩
    ∧ (((ADKAgent.process st s).2).metadata.map Metadata.model) =
        some st.config.model.name := by
  refine ⟨?_, rfl⟩
  simp [ADKAgent.process]

end AgentToolkit
